import Mathlib

/-!
Verification of the candidate-job matching core of the `hr-ai-agent`
repository against its specification.

Modelling conventions:
* Python strings are modelled as lists of characters (`Str`), so that every
  string operation is structurally recursive and computable by the kernel.
* Python floats are modelled as exact rationals (`ℚ`); `round(x, 2)` is
  modelled as rounding `x * 100` to the nearest integer (half away from zero
  versus banker's rounding makes no difference for any value appearing here).
* Python dicts are modelled as association lists in insertion order;
  `dict.get(k, d)` is `dget`.
* External capabilities (the LLM chain, `json.loads`, the embedding provider,
  the text-splitting library, the filesystem and the vector store) are
  parameters of the embedded functions; the repository's own control flow
  around them is embedded faithfully.
-/

/-- Model of a Python `str`: a sequence of characters. -/
abbrev Str := List Char

/-- Coerce a Lean string literal into the model. -/
def str (s : String) : Str := s.data

/-- Python `str.strip()`: drop whitespace from both ends. -/
def py_strip (s : Str) : Str :=
  ((s.dropWhile Char.isWhitespace).reverse.dropWhile Char.isWhitespace).reverse

/-- Python truthiness test `not s or not s.strip()` for a string `s`:
true exactly when `s` is empty or whitespace-only. -/
def py_is_blank (s : Str) : Bool := decide (py_strip s = [])

/-- Decimal representation of a natural number, as used by Python f-strings
for the chunk index in vector identifiers. -/
def nat_str (n : Nat) : Str := (Nat.repr n).data

/-- Model of Python `round(x, 2)`: round to two decimal places. -/
def round2 (x : ℚ) : ℚ := (⌊x * 100 + 1/2⌋ : ℤ) / 100

theorem round2_nonneg (x : ℚ) (h : 0 ≤ x) : 0 ≤ round2 x := by
  unfold round2
  have h1 : (0:ℤ) ≤ ⌊x * 100 + 1/2⌋ := by
    apply Int.le_floor.mpr
    push_cast
    linarith
  positivity

theorem round2_le_100 (x : ℚ) (h : x ≤ 100) : round2 x ≤ 100 := by
  unfold round2
  have h1 : ⌊x * 100 + 1/2⌋ ≤ ⌊(10000 : ℚ) + 1/2⌋ := Int.floor_le_floor (by linarith)
  have h2 : ⌊(10000 : ℚ) + 1/2⌋ = 10000 := by
    rw [Int.floor_eq_iff]
    constructor
    · push_cast
      linarith
    · push_cast
      linarith
  rw [h2] at h1
  rw [div_le_iff₀ (by norm_num : (0:ℚ) < 100)]
  exact_mod_cast h1

/-- The normalized analysis dictionary returned by
`CVAnalysisAgent.analyze_cv_match` (src/agent.py and src/core/agent.py).
After the `setdefault` calls every key is present, so the model is a total
record. -/
structure Analysis where
  candidate_name : Str
  skill_match_score : ℚ
  experience_score : ℚ
  tool_tech_score : ℚ
  seniority_score : ℚ
  matched_skills : List Str
  missing_skills : List Str
  explanation : Str

/-- The raw payload produced by `json.loads` on the LLM response: any of the
expected keys may be absent (`none`). A response whose JSON decoding fails, or
whose score values cannot be converted by `float(...)`, is modelled by the
decoder returning `none` for the whole payload. -/
structure RawAnalysis where
  candidate_name : Option Str
  skill_match_score : Option ℚ
  experience_score : Option ℚ
  tool_tech_score : Option ℚ
  seniority_score : Option ℚ
  matched_skills : Option (List Str)
  missing_skills : Option (List Str)
  explanation : Option Str

/-- The `setdefault` / clamping normalization applied to a successfully parsed
payload (identical in src/agent.py lines 118-130 and src/core/agent.py lines
145-157): substitute defaults for missing fields and clamp the four sub-scores
into [0, 100]. -/
def normalize_analysis (raw : RawAnalysis) : Analysis where
  candidate_name := raw.candidate_name.getD (str "Unknown")
  skill_match_score := max 0 (min 100 (raw.skill_match_score.getD 0))
  experience_score := max 0 (min 100 (raw.experience_score.getD 0))
  tool_tech_score := max 0 (min 100 (raw.tool_tech_score.getD 0))
  seniority_score := max 0 (min 100 (raw.seniority_score.getD 0))
  matched_skills := raw.matched_skills.getD []
  missing_skills := raw.missing_skills.getD []
  explanation := raw.explanation.getD (str "Analysis completed.")

namespace Agent

/-!
Embedding of `CVAnalysisAgent` from src/agent.py — the implementation that
src/api.py imports (`from agent import CVAnalysisAgent`) and hands to the
`RankingEngine`. The LLM chain is a parameter `llm` returning either an
exception (`Except.error`) or the raw response text; `json.loads` together
with the `float(...)` conversions is a parameter `decode`.
-/

/-- `max_chars = 15000` (src/agent.py line 95). -/
def max_chars : Nat := 15000

/-- Truncation `t[:max_chars] if len(t) > max_chars else t` (src/agent.py
lines 96-97). -/
def truncate (s : Str) : Str := if max_chars < s.length then s.take max_chars else s

/-- The response cleaning of src/agent.py lines 107-114: strip, then three
independent `if` statements removing code-fence markers, then strip again. -/
def clean_result (r : Str) : Str :=
  let r1 := py_strip r
  let r2 := if (str "```json").isPrefixOf r1 then r1.drop 7 else r1
  let r3 := if (str "```").isPrefixOf r2 then r2.drop 3 else r2
  let r4 := if (str "```").isSuffixOf r3 then r3.take (r3.length - 3) else r3
  py_strip r4

/-- `_get_default_analysis` (src/agent.py lines 143-154). -/
def default_analysis : Analysis where
  candidate_name := str "Unknown"
  skill_match_score := 0
  experience_score := 0
  tool_tech_score := 0
  seniority_score := 0
  matched_skills := []
  missing_skills := []
  explanation := str "Analysis encountered an error. Please review manually."

/-- The `json.JSONDecodeError` handler of src/agent.py lines 135-138: a
response that fails to parse yields `_get_default_analysis()`; one that
parses is normalized. -/
def analyze_of_parsed : Option RawAnalysis → Analysis
  | none => default_analysis
  | some raw => normalize_analysis raw

/-- The handling of the chain's outcome in src/agent.py lines 100-141: the
generic `except Exception` handler maps any raised exception to
`_get_default_analysis()`; a returned response is cleaned of code fences and
parsed. -/
def analyze_of_response (decode : Str → Option RawAnalysis) : Except Unit Str → Analysis
  | Except.error _ => default_analysis
  | Except.ok result => analyze_of_parsed (decode (clean_result result))

/-- `analyze_cv_match` (src/agent.py lines 82-141). There is no empty-input
guard: the chain is invoked unconditionally on the truncated texts. -/
def analyze_cv_match (llm : Str → Str → Except Unit Str)
    (decode : Str → Option RawAnalysis) (jd_text cv_text : Str) : Analysis :=
  analyze_of_response decode (llm (truncate jd_text) (truncate cv_text))

/-- The external structured-assessment calls issued by one invocation of
src/agent.py `analyze_cv_match`: `self.analysis_chain.run(...)` is executed
unconditionally (line 100), before any validation of the inputs, so exactly
one call with the truncated texts is always made. -/
def analyze_external_calls (jd_text cv_text : Str) : List (Str × Str) :=
  [(truncate jd_text, truncate cv_text)]

end Agent

namespace CoreAgent

/-!
Embedding of `CVAnalysisAgent` from src/core/agent.py — a parallel copy of
the agent that no module under src/ imports. It differs from src/agent.py in
having an empty-input guard and per-failure explanation strings.
-/

/-- Truncation, as in src/core/agent.py lines 104-106 (same 15000 budget). -/
def truncate (s : Str) : Str := if Agent.max_chars < s.length then s.take Agent.max_chars else s

/-- The response cleaning of src/core/agent.py lines 120-130: strip, an
`if`/`elif` pair for the opening fence, an `if` for the closing fence, strip. -/
def clean_result (r : Str) : Str :=
  let r1 := py_strip r
  let r2 := if (str "```json").isPrefixOf r1 then r1.drop 7
            else if (str "```").isPrefixOf r1 then r1.drop 3 else r1
  let r3 := if (str "```").isSuffixOf r2 then r2.take (r2.length - 3) else r2
  py_strip r3

/-- `_get_default_analysis(explanation)` (src/core/agent.py lines 171-182). -/
def default_analysis (explanation : Str) : Analysis where
  candidate_name := str "Unknown"
  skill_match_score := 0
  experience_score := 0
  tool_tech_score := 0
  seniority_score := 0
  matched_skills := []
  missing_skills := []
  explanation := explanation

/-- `analyze_cv_match` (src/core/agent.py lines 82-169): validates the inputs
first (lines 94-101) and returns a degraded default — with no LLM call — when
either text is empty or whitespace-only. -/
def analyze_cv_match (llm : Str → Str → Except Unit Str)
    (decode : Str → Option RawAnalysis) (jd_text cv_text : Str) : Analysis :=
  if py_is_blank jd_text then default_analysis (str "Please provide a Job Description.")
  else if py_is_blank cv_text then default_analysis (str "Please provide a CV.")
  else
    match llm (truncate jd_text) (truncate cv_text) with
    | Except.error _ => default_analysis (str "Analysis could not be completed. Please try again.")
    | Except.ok result =>
      if result = [] then default_analysis (str "LLM returned empty output. Please try again.")
      else
        let cleaned := clean_result result
        if cleaned = [] then default_analysis (str "LLM returned empty output. Please try again.")
        else if cleaned = [] ∨ py_strip cleaned = [] then
          default_analysis (str "Empty response received. Please try again.")
        else
          match decode cleaned with
          | none => default_analysis (str "Analysis could not be completed. Please try again.")
          | some raw => normalize_analysis raw

/-- The external calls issued by one invocation of src/core/agent.py
`analyze_cv_match`: the chain runs only after both input guards pass. -/
def analyze_external_calls (jd_text cv_text : Str) : List (Str × Str) :=
  if py_is_blank jd_text then []
  else if py_is_blank cv_text then []
  else [(truncate jd_text, truncate cv_text)]

end CoreAgent

namespace Ranking

/-!
Embedding of `RankingEngine` and `CandidateScore` from src/ranking.py. The
agent analyzer is a parameter `analyzer : Str → Str → Analysis` (the engine
stores it and calls `analyze_cv_match` on each candidate). `cv_data` is an
association list `file_path ↦ Optional text` and `semantic_scores` an
association list `file_path ↦ ℚ`, both in insertion order.
-/

/-- `CandidateScore` (src/ranking.py lines 14-27). -/
structure CandidateScore where
  candidate_name : Str
  file_path : Str
  match_score : ℚ
  matched_skills : List Str
  missing_skills : List Str
  explanation : Str
  skill_match_score : ℚ
  experience_score : ℚ
  tool_tech_score : ℚ
  seniority_score : ℚ
  semantic_score : ℚ

/-- `WEIGHTS["skill_match"]` (src/ranking.py line 38). -/
def WEIGHTS_skill_match : ℚ := 0.40

/-- `WEIGHTS["experience"]` (src/ranking.py line 39). -/
def WEIGHTS_experience : ℚ := 0.25

/-- `WEIGHTS["tool_tech"]` (src/ranking.py line 40). -/
def WEIGHTS_tool_tech : ℚ := 0.20

/-- `WEIGHTS["seniority"]` (src/ranking.py line 41). -/
def WEIGHTS_seniority : ℚ := 0.10

/-- `WEIGHTS["semantic"]` (src/ranking.py line 42). -/
def WEIGHTS_semantic : ℚ := 0.05

/-- Python `dict.get(k, d)` on an association list. -/
def dget (m : List (Str × ℚ)) (k : Str) (d : ℚ) : ℚ :=
  match m.find? (fun p => decide (p.1 = k)) with
  | some p => p.2
  | none => d

/-- The loop body of `rank_candidates` for one candidate with non-None text
(src/ranking.py lines 82-118): analyze, take the four sub-scores, scale the
semantic score to 0-100, form the weighted sum, clamp it to [0, 100], and
build the `CandidateScore` with all score fields rounded to 2 decimals. -/
def score_candidate (analyzer : Str → Str → Analysis) (jd_text : Str)
    (semantic_scores : List (Str × ℚ)) (file_path cv_text : Str) : CandidateScore :=
  let analysis := analyzer jd_text cv_text
  let skill_match_score := analysis.skill_match_score
  let experience_score := analysis.experience_score
  let tool_tech_score := analysis.tool_tech_score
  let seniority_score := analysis.seniority_score
  let semantic_score := dget semantic_scores file_path 0 * 100
  let final_score :=
    skill_match_score * WEIGHTS_skill_match +
    experience_score * WEIGHTS_experience +
    tool_tech_score * WEIGHTS_tool_tech +
    seniority_score * WEIGHTS_seniority +
    semantic_score * WEIGHTS_semantic
  let final_clamped := max 0 (min 100 final_score)
  { candidate_name := analysis.candidate_name
    file_path := file_path
    match_score := round2 final_clamped
    matched_skills := analysis.matched_skills
    missing_skills := analysis.missing_skills
    explanation := analysis.explanation
    skill_match_score := round2 skill_match_score
    experience_score := round2 experience_score
    tool_tech_score := round2 tool_tech_score
    seniority_score := round2 seniority_score
    semantic_score := round2 semantic_score }

/-- Insert a candidate into a list already sorted by `match_score` descending,
after any earlier candidate with an equal or higher score. -/
def insert_by_match_score (c : CandidateScore) : List CandidateScore → List CandidateScore
  | [] => [c]
  | d :: ds => if d.match_score ≤ c.match_score then c :: d :: ds else d :: insert_by_match_score c ds

/-- Stable sort by `match_score` descending, modelling
`candidate_scores.sort(key=lambda x: x.match_score, reverse=True)`
(src/ranking.py line 123). Python's `list.sort` is stable, and a stable sort's
output is uniquely determined, so this insertion sort computes the same list. -/
def sort_by_match_score_desc (l : List CandidateScore) : List CandidateScore :=
  l.foldr insert_by_match_score []

/-- The pre-sort list built by the `for` loop of `rank_candidates`
(src/ranking.py lines 76-120): candidates whose text is `None` are skipped by
the `continue` on line 78. -/
def scored_candidates (analyzer : Str → Str → Analysis) (jd_text : Str)
    (cv_data : List (Str × Option Str)) (semantic_scores : List (Str × ℚ)) :
    List CandidateScore :=
  cv_data.filterMap fun p =>
    match p.2 with
    | none => none
    | some cv_text => some (score_candidate analyzer jd_text semantic_scores p.1 cv_text)

/-- `RankingEngine.rank_candidates` (src/ranking.py lines 55-126). The
`session_id` argument is accepted and unused, as in the source. -/
def rank_candidates (analyzer : Str → Str → Analysis) (jd_text : Str)
    (cv_data : List (Str × Option Str)) (semantic_scores : List (Str × ℚ))
    (session_id : Str) : List CandidateScore :=
  let _ := session_id
  sort_by_match_score_desc (scored_candidates analyzer jd_text cv_data semantic_scores)

/-- `RankingEngine.get_top_candidates` (src/ranking.py lines 128-143). -/
def get_top_candidates (ranked_candidates : List CandidateScore) (top_n : Nat) :
    List CandidateScore :=
  ranked_candidates.take top_n

theorem mem_insert_by_match_score (c x : CandidateScore) (l : List CandidateScore) :
    x ∈ insert_by_match_score c l ↔ x = c ∨ x ∈ l := by
  induction l with
  | nil => simp [insert_by_match_score]
  | cons d ds ih =>
    simp only [insert_by_match_score]
    by_cases h : d.match_score ≤ c.match_score
    · simp [h]
    · simp [h, ih]
      tauto

theorem mem_sort_by_match_score_desc (x : CandidateScore) (l : List CandidateScore) :
    x ∈ sort_by_match_score_desc l ↔ x ∈ l := by
  induction l with
  | nil => simp [sort_by_match_score_desc]
  | cons d ds ih =>
    simp only [sort_by_match_score_desc, List.foldr_cons] at ih ⊢
    rw [mem_insert_by_match_score, ih]
    simp

theorem length_insert_by_match_score (c : CandidateScore) (l : List CandidateScore) :
    (insert_by_match_score c l).length = l.length + 1 := by
  induction l with
  | nil => simp [insert_by_match_score]
  | cons d ds ih =>
    simp only [insert_by_match_score]
    by_cases h : d.match_score ≤ c.match_score
    · simp [h]
    · simp [h, ih]

theorem length_sort_by_match_score_desc (l : List CandidateScore) :
    (sort_by_match_score_desc l).length = l.length := by
  induction l with
  | nil => rfl
  | cons d ds ih =>
    simp only [sort_by_match_score_desc, List.foldr_cons] at ih ⊢
    rw [length_insert_by_match_score, ih, List.length_cons]

/-- Characterization of membership in the ranked output: exactly the scored
images of the candidates with available text. -/
theorem mem_rank_candidates_iff (analyzer : Str → Str → Analysis) (jd_text : Str)
    (cv_data : List (Str × Option Str)) (semantic_scores : List (Str × ℚ))
    (session_id : Str) (c : CandidateScore) :
    c ∈ rank_candidates analyzer jd_text cv_data semantic_scores session_id ↔
      ∃ fp cv_text, (fp, some cv_text) ∈ cv_data ∧
        c = score_candidate analyzer jd_text semantic_scores fp cv_text := by
  unfold rank_candidates
  rw [mem_sort_by_match_score_desc]
  unfold scored_candidates
  rw [List.mem_filterMap]
  constructor
  · rintro ⟨⟨fp, ocv⟩, hmem, hf⟩
    cases ocv with
    | none => simp at hf
    | some cv_text =>
      simp only [Option.some.injEq] at hf
      exact ⟨fp, cv_text, hmem, hf.symm⟩
  · rintro ⟨fp, cv_text, hmem, rfl⟩
    exact ⟨(fp, some cv_text), hmem, rfl⟩

theorem length_scored_candidates (analyzer : Str → Str → Analysis) (jd_text : Str)
    (cv_data : List (Str × Option Str)) (semantic_scores : List (Str × ℚ)) :
    (scored_candidates analyzer jd_text cv_data semantic_scores).length =
      (cv_data.filter (fun p => p.2.isSome)).length := by
  induction cv_data with
  | nil => rfl
  | cons p ps ih =>
    cases h : p.2 with
    | none => simpa [scored_candidates, List.filterMap_cons, h, List.filter_cons] using ih
    | some cv_text => simpa [scored_candidates, List.filterMap_cons, h, List.filter_cons] using ih

end Ranking

namespace Ingestion

/-!
Embedding of `IngestionPipeline` from src/ingestion.py. The external
text-splitting library (`RecursiveCharacterTextSplitter`, wrapped by
`CVTextSplitter` in src/utils/splitter.py) and the embedding provider are
parameters; what is embedded is the repository's own id assignment, metadata
construction and batching of the upsert calls, and the session cleanup.
The numeric embedding vectors play no role in any claim and are omitted from
the record model.
-/

/-- A record sent to the vector store by `index.upsert`: id plus the metadata
fields assembled in src/ingestion.py (lines 130-139 and 184-195). -/
structure VectorRecord where
  id : Str
  record_type : Str
  session_id : Str
  chunk_index : Nat
  text_excerpt : Str
deriving DecidableEq

/-- `CVTextSplitter.split_text` (src/utils/splitter.py lines 43-59): an empty
or whitespace-only text yields `[]` without invoking the library splitter
`lib_split`; otherwise the library's chunk list is returned. -/
def split_text (lib_split : Str → List Str) (text : Str) : List Str :=
  if py_strip text = [] then [] else lib_split text

/-- Index of the last `.` in a filename, if any. -/
def last_dot (name : Str) : Option Nat :=
  ((name.enum.filter (fun p => decide (p.2 = '.'))).map (fun p => p.1)).getLast?

/-- Python `pathlib.Path(file_path).stem`: the final path component without
its last suffix; a dot at position 0 or at the very end does not start a
suffix. -/
def stem (file_path : Str) : Str :=
  let name := (file_path.splitOn '/').getLastD []
  match last_dot name with
  | some k => if 0 < k ∧ k + 1 < name.length then name.take k else name
  | none => name

/-- `f"jd_{session_id}_{i}"` (src/ingestion.py line 129). -/
def jd_vector_id (session_id : Str) (i : Nat) : Str :=
  str "jd_" ++ session_id ++ str "_" ++ nat_str i

/-- `f"cv_{session_id}_{Path(file_path).stem}_{i}"` (src/ingestion.py
line 181). -/
def cv_vector_id (session_id file_path : Str) (i : Nat) : Str :=
  str "cv_" ++ session_id ++ str "_" ++ stem file_path ++ str "_" ++ nat_str i

/-- The vectors built for a job description's chunks (src/ingestion.py lines
127-139): one record per chunk, with the first 500 characters of the chunk as
excerpt. -/
def jd_vectors (session_id : Str) (chunks : List Str) : List VectorRecord :=
  chunks.enum.map fun p =>
    { id := jd_vector_id session_id p.1
      record_type := str "job_description"
      session_id := session_id
      chunk_index := p.1
      text_excerpt := p.2.take 500 }

/-- The vectors built for one CV's chunks (src/ingestion.py lines 179-195). -/
def cv_vectors (session_id file_path : Str) (chunks : List Str) : List VectorRecord :=
  chunks.enum.map fun p =>
    { id := cv_vector_id session_id file_path p.1
      record_type := str "cv"
      session_id := session_id
      chunk_index := p.1
      text_excerpt := p.2.take 500 }

/-- The sequence of `index.upsert` calls issued by `ingest_job_description`
(src/ingestion.py lines 109-145): all chunk vectors are passed to a single
`upsert` call with no batching (line 142). -/
def ingest_job_description_upserts (lib_split : Str → List Str)
    (jd_text session_id : Str) : List (List VectorRecord) :=
  [jd_vectors session_id (split_text lib_split jd_text)]

/-- `all_vectors` as accumulated across the CVs by `ingest_cvs`
(src/ingestion.py lines 162-195): per-file vectors concatenated in insertion
order, skipping files whose text is `None` (line 166). -/
def ingest_cvs_all_vectors (lib_split : Str → List Str)
    (cv_data : List (Str × Option Str)) (session_id : Str) : List VectorRecord :=
  (cv_data.filterMap fun p =>
    match p.2 with
    | none => none
    | some text => some (cv_vectors session_id p.1 (split_text lib_split text))).flatten

/-- `all_vectors[i:i + batch_size]` slicing with `batch_size = 100`
(src/ingestion.py lines 202-205), via explicit fuel (at least the list
length) so the definition is structurally recursive. -/
def to_batches_fuel : Nat → List VectorRecord → List (List VectorRecord)
  | 0, _ => []
  | _, [] => []
  | fuel + 1, v :: vs => ((v :: vs).take 100) :: to_batches_fuel fuel ((v :: vs).drop 100)

/-- The batches `range(0, len(all_vectors), 100)` produces. -/
def to_batches (l : List VectorRecord) : List (List VectorRecord) :=
  to_batches_fuel l.length l

/-- The sequence of `index.upsert` calls issued by `ingest_cvs`
(src/ingestion.py lines 147-209): nothing is upserted when `all_vectors` is
empty (line 200); otherwise slices of at most 100 records each. -/
def ingest_cvs_upserts (lib_split : Str → List Str)
    (cv_data : List (Str × Option Str)) (session_id : Str) : List (List VectorRecord) :=
  let all_vectors := ingest_cvs_all_vectors lib_split cv_data session_id
  if all_vectors = [] then [] else to_batches all_vectors

/-- `cleanup_session_vectors` (src/ingestion.py lines 265-282) against a store
modelled as the list of live records. The vector store's `delete` call either
succeeds (removing every record whose metadata carries the session id) or
raises, which the surrounding `try`/`except` catches and logs; in both cases
the Python function simply returns `None`, modelled as `Except.ok ()`. -/
def cleanup_session_vectors (store : List VectorRecord) (session_id : Str)
    (delete_raises : Bool) : List VectorRecord × Except Str Unit :=
  if delete_raises then (store, Except.ok ())
  else (store.filter (fun r => ! decide (r.session_id = session_id)), Except.ok ())

/-- Pinecone upsert of one record: overwrite the stored record with the same
id if present, else append. -/
def upsert1 (store : List VectorRecord) (r : VectorRecord) : List VectorRecord :=
  if store.any (fun s => decide (s.id = r.id)) then
    store.map (fun s => if s.id = r.id then r else s)
  else store ++ [r]

/-- Pinecone upsert of a batch, record by record. -/
def upsert_batch (store : List VectorRecord) (batch : List VectorRecord) : List VectorRecord :=
  batch.foldl upsert1 store

/-- Fetch the stored record with a given id, if any. -/
def lookup_id (store : List VectorRecord) (i : Str) : Option VectorRecord :=
  store.find? (fun s => decide (s.id = i))

theorem find?_map_replace (r : VectorRecord) (ss : List VectorRecord)
    (h : ss.any (fun s => decide (s.id = r.id)) = true) :
    (ss.map (fun s => if s.id = r.id then r else s)).find?
      (fun s => decide (s.id = r.id)) = some r := by
  induction ss with
  | nil => simp at h
  | cons s ss ih =>
    by_cases hs : s.id = r.id
    · simp [List.find?, hs]
    · rw [List.map_cons, if_neg hs, List.find?_cons]
      rw [decide_eq_false hs]
      apply ih
      simpa [hs] using h

theorem lookup_id_upsert1 (store : List VectorRecord) (r : VectorRecord) :
    lookup_id (upsert1 store r) r.id = some r := by
  unfold upsert1 lookup_id
  by_cases h : store.any (fun s => decide (s.id = r.id)) = true
  · rw [if_pos h]
    exact find?_map_replace r store h
  · rw [if_neg h]
    rw [List.find?_append]
    have hnone : store.find? (fun s => decide (s.id = r.id)) = none := by
      rw [List.find?_eq_none]
      intro x hx
      simp only [List.any_eq_true, not_exists, not_and] at h
      simp [h x hx]
    simp [hnone]

theorem to_batches_fuel_le_100 (fuel : Nat) (l : List VectorRecord)
    (b : List VectorRecord) (hb : b ∈ to_batches_fuel fuel l) : b.length ≤ 100 := by
  induction fuel generalizing l with
  | zero => simp [to_batches_fuel] at hb
  | succ n ih =>
    cases l with
    | nil => simp [to_batches_fuel] at hb
    | cons v vs =>
      simp only [to_batches_fuel, List.mem_cons] at hb
      cases hb with
      | inl h =>
        subst h
        simp
      | inr h => exact ih _ h

end Ingestion

namespace Security

/-!
Embedding of `SessionManager` from src/utils/security.py. Paths are modelled
as lists of components; writing through a path lets the operating system
resolve `.` and `..` components, which `resolve_components` models. The
filesystem state relevant to `cleanup_session` is abstracted into two
booleans: whether the session directory exists and whether `shutil.rmtree`
raises.
-/

/-- Split a textual path into its components, ignoring empty components. -/
def split_path (s : Str) : List Str :=
  (s.splitOn '/').filter (fun c => ! decide (c = []))

/-- Resolve `.` and `..` components the way the filesystem does when a file
is opened at the joined path. -/
def resolve_components (cs : List Str) : List Str :=
  cs.foldl (fun acc c =>
    if c = str ".." then acc.dropLast
    else if c = str "." then acc
    else acc ++ [c]) []

/-- The path `SessionManager.save_file` opens for writing
(src/utils/security.py lines 56-73): `self.base_temp_dir / session_id /
filename`, joined with no validation or sanitization of `filename`, then
resolved by the filesystem. -/
def save_file_target (base_temp_dir session_id filename : Str) : List Str :=
  resolve_components (split_path base_temp_dir ++ [session_id] ++ split_path filename)

/-- Whether the resolved write target lies inside the session's own
directory. -/
def write_stays_in_session (base_temp_dir session_id filename : Str) : Bool :=
  (resolve_components (split_path base_temp_dir ++ [session_id])).isPrefixOf
    (save_file_target base_temp_dir session_id filename)

/-- `SessionManager.cleanup_session` (src/utils/security.py lines 75-93):
inside `try`, if the session directory exists it is removed and `True` is
returned; `shutil.rmtree` raising lands in the `except` block, which returns
`False`; if the directory does not exist the function falls off the end of
the `try` block and returns Python `None`, modelled as `none`. -/
def cleanup_session (dir_exists rmtree_raises : Bool) : Option Bool :=
  if dir_exists then (if rmtree_raises then some false else some true) else none

end Security

/-!
## Concrete objects used by the claim witnesses and counterexamples
-/

/-- Analyzer producing the specification scenario's sub-scores
(80, 70, 90, 60) for every candidate. -/
def demo_analyzer : Str → Str → Analysis := fun _ _ =>
  { candidate_name := str "Candidate"
    skill_match_score := 80
    experience_score := 70
    tool_tech_score := 90
    seniority_score := 60
    matched_skills := []
    missing_skills := []
    explanation := str "ok" }

/-- One candidate with available text. -/
def demo_cv_data : List (Str × Option Str) := [(str "cv1.pdf", some (str "cv text"))]

/-- Semantic similarity 0.82 for that candidate. -/
def demo_semantic : List (Str × ℚ) := [(str "cv1.pdf", 0.82)]

/-- An LLM capability that always answers with unparseable text. -/
def demo_llm : Str → Str → Except Unit Str := fun _ _ => Except.ok (str "not json")

/-- A decoder on which every response fails to parse. -/
def demo_decode : Str → Option RawAnalysis := fun _ => none

/-- A library splitter yielding 101 chunks, modelling a job description long
enough to split into 101 pieces. -/
def demo_split_101 : Str → List Str := fun _ => List.replicate 101 (str "c")

/-- A library splitter yielding a single chunk. -/
def demo_split_1 : Str → List Str := fun _ => [str "chunk"]

/-- A stored vector tagged with session `s1`. -/
def demo_vec : Ingestion.VectorRecord :=
  { id := str "cv_s1_cv1_0"
    record_type := str "cv"
    session_id := str "s1"
    chunk_index := 0
    text_excerpt := str "c" }

/-- The single vector record `ingest_cvs` builds for chunk 0 of
`a/john.pdf`. -/
def demo_r1 : Ingestion.VectorRecord :=
  { id := str "cv_s1_john_0"
    record_type := str "cv"
    session_id := str "s1"
    chunk_index := 0
    text_excerpt := str "x" }

/-- The single vector record `ingest_cvs` builds for chunk 0 of
`b/john.pdf` — a different document whose filename stem is also `john`. -/
def demo_r2 : Ingestion.VectorRecord :=
  { id := str "cv_s1_john_0"
    record_type := str "cv"
    session_id := str "s1"
    chunk_index := 0
    text_excerpt := str "y" }

/-!
## Claim C3 — path traversal in `SessionManager.save_file`
-/

/-- C3: the claim states that `save_file` confines every write to the
session's own directory for every filename. The code (src/utils/security.py
lines 56-73) joins `session_dir / filename` with no validation, so the
filename `../evil.pdf` — which also passes `SecurityValidator`'s extension
check — resolves to `temp_sessions/evil.pdf`, outside the session directory
`temp_sessions/s1`. This theorem evaluates the embedded code at that failing
input. -/
theorem c3_save_file_traversal_escape :
    Security.save_file_target (str "temp_sessions") (str "s1") (str "../evil.pdf") =
      [str "temp_sessions", str "evil.pdf"] ∧
    Security.write_stays_in_session (str "temp_sessions") (str "s1") (str "../evil.pdf") = false := by
  constructor
  · decide
  · decide

/-!
## Claim C7 — batching of vector-store upserts
-/

/-- C7 counterexample: the claim states that every upsert call issued by
both `ingest_job_description` and `ingest_cvs` carries at most 100 records.
`ingest_job_description` (src/ingestion.py line 142) performs one unbatched
upsert of all chunk vectors: with a job description splitting into 101
chunks, that single call carries 101 records. -/
theorem c7_jd_upsert_unbatched :
    Ingestion.ingest_job_description_upserts demo_split_101 (str "jd") (str "s1") =
      [Ingestion.jd_vectors (str "s1") (List.replicate 101 (str "c"))] ∧
    (Ingestion.jd_vectors (str "s1") (List.replicate 101 (str "c"))).length = 101 := by
  constructor
  · rfl
  · simp [Ingestion.jd_vectors]

/-- C7 (amended): every upsert call issued by `ingest_cvs` carries at most
100 records (src/ingestion.py lines 200-205); `ingest_job_description` is not
batched and its single upsert can exceed 100 records. -/
theorem c7_cv_upserts_bounded (lib_split : Str → List Str)
    (cv_data : List (Str × Option Str)) (session_id : Str)
    (b : List Ingestion.VectorRecord)
    (hb : b ∈ Ingestion.ingest_cvs_upserts lib_split cv_data session_id) :
    b.length ≤ 100 := by
  unfold Ingestion.ingest_cvs_upserts at hb
  simp only [] at hb
  split at hb
  · exact absurd hb (List.not_mem_nil b)
  · exact Ingestion.to_batches_fuel_le_100 _ _ b hb

/-- C7 witness: the single batch produced for a one-chunk CV is an upsert
call of `ingest_cvs`, and by the theorem it carries at most 100 records. -/
theorem c7_cv_upserts_bounded_witness :
    Ingestion.cv_vectors (str "s1") (str "cv1.pdf") [str "chunk"] ∈
      Ingestion.ingest_cvs_upserts demo_split_1 demo_cv_data (str "s1") ∧
    (Ingestion.cv_vectors (str "s1") (str "cv1.pdf") [str "chunk"]).length ≤ 100 := by
  have hmem : Ingestion.cv_vectors (str "s1") (str "cv1.pdf") [str "chunk"] ∈
      Ingestion.ingest_cvs_upserts demo_split_1 demo_cv_data (str "s1") := by
    decide
  exact ⟨hmem, c7_cv_upserts_bounded demo_split_1 demo_cv_data (str "s1") _ hmem⟩

/-!
## Claim C8 — vector-delete failures during session cleanup
-/

/-- C8 counterexample: the claim states a failing vector-store delete is
surfaced as an explicit operation failure to the caller of
`cleanup_session_vectors`. The code (src/ingestion.py lines 274-282) catches
the exception, logs it, and returns normally: with a store still holding a
vector of session `s1` and a raising delete, the caller sees a normal return
(`Except.ok ()`, Python `None`) and the vector survives. -/
theorem c8_cleanup_vectors_swallows_error :
    (Ingestion.cleanup_session_vectors [demo_vec] (str "s1") true).2 = Except.ok () ∧
    (Ingestion.cleanup_session_vectors [demo_vec] (str "s1") true).1 = [demo_vec] := by
  exact ⟨rfl, rfl⟩

/-- C8 (amended): `cleanup_session_vectors` always returns normally — a
vector-store delete failure is caught and logged, not surfaced to the caller,
and in that case the session's vectors remain in the store. -/
theorem c8_cleanup_vectors_returns_normally (store : List Ingestion.VectorRecord)
    (session_id : Str) (delete_raises : Bool) :
    (Ingestion.cleanup_session_vectors store session_id delete_raises).2 = Except.ok () ∧
    (delete_raises = true →
      (Ingestion.cleanup_session_vectors store session_id delete_raises).1 = store) := by
  cases delete_raises <;> simp [Ingestion.cleanup_session_vectors]

/-- C8 witness: instantiating the amended theorem at a raising delete over a
one-vector store. -/
theorem c8_cleanup_vectors_returns_normally_witness :
    (Ingestion.cleanup_session_vectors [demo_vec] (str "s2") true).1 = [demo_vec] :=
  (c8_cleanup_vectors_returns_normally [demo_vec] (str "s2") true).2 rfl

/-!
## Claim C9 — return value of `SessionManager.cleanup_session`
-/

/-- C9 counterexample: the claim states `cleanup_session` returns a boolean.
On a second successive call (or a never-initialized session) the directory
does not exist, the `if session_dir.exists()` body is skipped, and the Python
function falls off the end of the `try` block returning `None` — not a
boolean. -/
theorem c9_second_call_returns_none :
    (Security.cleanup_session false false).isSome = false := by
  exact rfl

/-- C9 (amended): `cleanup_session` returns `True` when the session directory
exists and removal succeeds, `False` when removal raises, and Python `None`
(not a boolean) when the directory does not exist — so a second successive
call is a no-op that raises no error but yields `None`. -/
theorem c9_cleanup_session_return_behavior (rmtree_raises : Bool) :
    Security.cleanup_session true false = some true ∧
    Security.cleanup_session true true = some false ∧
    Security.cleanup_session false rmtree_raises = none := by
  cases rmtree_raises <;> exact ⟨rfl, rfl, rfl⟩

/-!
## Claim C10 — vector-id collisions for CVs sharing a filename stem
-/

/-- C10: two distinct CV file paths with the same filename stem, ingested in
the same session, receive the identical vector id `cv_{session}_{stem}_{i}`
for their chunk at index `i` (src/ingestion.py line 181); and upserting under
an id that is already stored overwrites the earlier record, so the later
document's vector replaces the earlier one in the store. -/
theorem c10_duplicate_stem_ids_collide :
    (∀ (session_id p1 p2 : Str) (c1 c2 : List Str) (i : Nat)
       (r1 r2 : Ingestion.VectorRecord),
       p1 ≠ p2 → Ingestion.stem p1 = Ingestion.stem p2 →
       r1 ∈ Ingestion.cv_vectors session_id p1 c1 →
       r2 ∈ Ingestion.cv_vectors session_id p2 c2 →
       r1.chunk_index = i → r2.chunk_index = i → r1.id = r2.id) ∧
    (∀ (store : List Ingestion.VectorRecord) (r1 r2 : Ingestion.VectorRecord),
       r1.id = r2.id →
       Ingestion.lookup_id (Ingestion.upsert1 (Ingestion.upsert1 store r1) r2) r2.id =
         some r2) := by
  constructor
  · intro session_id p1 p2 c1 c2 i r1 r2 hne hstem h1 h2 hi1 hi2
    unfold Ingestion.cv_vectors at h1 h2
    rw [List.mem_map] at h1 h2
    obtain ⟨q1, hq1, rfl⟩ := h1
    obtain ⟨q2, hq2, rfl⟩ := h2
    have e1 : q1.1 = i := hi1
    have e2 : q2.1 = i := hi2
    show Ingestion.cv_vector_id session_id p1 q1.1 = Ingestion.cv_vector_id session_id p2 q2.1
    rw [e1, e2]
    unfold Ingestion.cv_vector_id
    rw [hstem]
  · intro store r1 r2 hid
    exact Ingestion.lookup_id_upsert1 (Ingestion.upsert1 store r1) r2

/-- C10 witness: `a/john.pdf` and `b/john.pdf` are distinct paths with stem
`john`; their chunk-0 records collide on the id `cv_s1_john_0`, and upserting
the second document's record after the first leaves the second one stored. -/
theorem c10_duplicate_stem_ids_collide_witness :
    demo_r1.id = demo_r2.id ∧
    Ingestion.lookup_id (Ingestion.upsert1 (Ingestion.upsert1 [] demo_r1) demo_r2)
      demo_r2.id = some demo_r2 := by
  constructor
  · exact c10_duplicate_stem_ids_collide.1 (str "s1") (str "a/john.pdf")
      (str "b/john.pdf") [str "x"] [str "y"] 0 demo_r1 demo_r2
      (by decide) (by decide) (by decide) (by decide) rfl rfl
  · exact c10_duplicate_stem_ids_collide.2 [] demo_r1 demo_r2 (by decide)

/-!
## Claim C1 — the weighted match-score formula
-/

/-- C1: every candidate in the output of `rank_candidates` has a match score
equal to `skill*0.40 + experience*0.25 + tool_tech*0.20 + seniority*0.10 +
semantic*0.05`, where `semantic` is the candidate's `semantic_scores` entry
(default 0) times 100, the sum clamped to [0, 100] and rounded to two
decimals (src/ranking.py lines 86-109). -/
theorem c1_match_score_formula (analyzer : Str → Str → Analysis) (jd_text : Str)
    (cv_data : List (Str × Option Str)) (semantic_scores : List (Str × ℚ))
    (session_id : Str) (c : Ranking.CandidateScore)
    (hc : c ∈ Ranking.rank_candidates analyzer jd_text cv_data semantic_scores session_id) :
    ∃ fp cv_text, (fp, some cv_text) ∈ cv_data ∧ c.file_path = fp ∧
      c.match_score = round2 (max 0 (min 100 (
        (analyzer jd_text cv_text).skill_match_score * 0.40 +
        (analyzer jd_text cv_text).experience_score * 0.25 +
        (analyzer jd_text cv_text).tool_tech_score * 0.20 +
        (analyzer jd_text cv_text).seniority_score * 0.10 +
        Ranking.dget semantic_scores fp 0 * 100 * 0.05))) := by
  obtain ⟨fp, cv_text, hmem, rfl⟩ :=
    (Ranking.mem_rank_candidates_iff analyzer jd_text cv_data semantic_scores session_id c).mp hc
  exact ⟨fp, cv_text, hmem, rfl, rfl⟩

/-- C1 witness: with sub-scores (80, 70, 90, 60) and semantic similarity
0.82 the candidate appears in the ranked output and its final score is
`32 + 17.5 + 18 + 6 + 4.1 = 77.6`. -/
theorem c1_match_score_formula_witness :
    Ranking.score_candidate demo_analyzer (str "jd") demo_semantic (str "cv1.pdf")
        (str "cv text") ∈
      Ranking.rank_candidates demo_analyzer (str "jd") demo_cv_data demo_semantic (str "s") ∧
    (∃ fp cv_text, (fp, some cv_text) ∈ demo_cv_data ∧
      (Ranking.score_candidate demo_analyzer (str "jd") demo_semantic (str "cv1.pdf")
        (str "cv text")).file_path = fp ∧
      (Ranking.score_candidate demo_analyzer (str "jd") demo_semantic (str "cv1.pdf")
        (str "cv text")).match_score = round2 (max 0 (min 100 (
          (demo_analyzer (str "jd") cv_text).skill_match_score * 0.40 +
          (demo_analyzer (str "jd") cv_text).experience_score * 0.25 +
          (demo_analyzer (str "jd") cv_text).tool_tech_score * 0.20 +
          (demo_analyzer (str "jd") cv_text).seniority_score * 0.10 +
          Ranking.dget demo_semantic fp 0 * 100 * 0.05)))) ∧
    (Ranking.score_candidate demo_analyzer (str "jd") demo_semantic (str "cv1.pdf")
      (str "cv text")).match_score = 77.6 := by
  have hmem : Ranking.score_candidate demo_analyzer (str "jd") demo_semantic (str "cv1.pdf")
      (str "cv text") ∈
      Ranking.rank_candidates demo_analyzer (str "jd") demo_cv_data demo_semantic (str "s") := by
    have e : Ranking.rank_candidates demo_analyzer (str "jd") demo_cv_data demo_semantic
        (str "s") = [Ranking.score_candidate demo_analyzer (str "jd") demo_semantic
          (str "cv1.pdf") (str "cv text")] := rfl
    rw [e]
    exact List.mem_singleton_self _
  refine ⟨hmem,
    c1_match_score_formula demo_analyzer (str "jd") demo_cv_data demo_semantic (str "s") _ hmem,
    ?_⟩
  have e2 : (Ranking.score_candidate demo_analyzer (str "jd") demo_semantic (str "cv1.pdf")
      (str "cv text")).match_score = round2 (max 0 (min 100 ((80:ℚ) * 0.40 + 70 * 0.25 +
        90 * 0.20 + 60 * 0.10 + 0.82 * 100 * 0.05))) := rfl
  rw [e2]
  norm_num [round2]

/-!
## Claim C2 — all exposed scores lie in [0, 100]
-/

/-- The four sub-scores `CVAnalysisAgent.analyze_cv_match` returns are always
in [0, 100]: the success path clamps them (src/agent.py lines 128-130) and
the fallback default sets them to 0. -/
theorem agent_scores_in_range (llm : Str → Str → Except Unit Str)
    (decode : Str → Option RawAnalysis) (jd_text cv_text : Str) :
    (0 ≤ (Agent.analyze_cv_match llm decode jd_text cv_text).skill_match_score ∧
      (Agent.analyze_cv_match llm decode jd_text cv_text).skill_match_score ≤ 100) ∧
    (0 ≤ (Agent.analyze_cv_match llm decode jd_text cv_text).experience_score ∧
      (Agent.analyze_cv_match llm decode jd_text cv_text).experience_score ≤ 100) ∧
    (0 ≤ (Agent.analyze_cv_match llm decode jd_text cv_text).tool_tech_score ∧
      (Agent.analyze_cv_match llm decode jd_text cv_text).tool_tech_score ≤ 100) ∧
    (0 ≤ (Agent.analyze_cv_match llm decode jd_text cv_text).seniority_score ∧
      (Agent.analyze_cv_match llm decode jd_text cv_text).seniority_score ≤ 100) := by
  have hcase : Agent.analyze_cv_match llm decode jd_text cv_text = Agent.default_analysis ∨
      ∃ raw, Agent.analyze_cv_match llm decode jd_text cv_text = normalize_analysis raw := by
    unfold Agent.analyze_cv_match
    cases llm (Agent.truncate jd_text) (Agent.truncate cv_text) with
    | error e => exact Or.inl rfl
    | ok r =>
      cases hd : decode (Agent.clean_result r) with
      | none =>
        exact Or.inl (by simp [Agent.analyze_of_response, Agent.analyze_of_parsed, hd])
      | some raw =>
        exact Or.inr ⟨raw, by simp [Agent.analyze_of_response, Agent.analyze_of_parsed, hd]⟩
  rcases hcase with h | ⟨raw, h⟩
  · rw [h]
    norm_num [Agent.default_analysis]
  · rw [h]
    unfold normalize_analysis
    exact ⟨⟨le_max_left 0 _, max_le (by norm_num) (min_le_left _ _)⟩,
      ⟨le_max_left 0 _, max_le (by norm_num) (min_le_left _ _)⟩,
      ⟨le_max_left 0 _, max_le (by norm_num) (min_le_left _ _)⟩,
      ⟨le_max_left 0 _, max_le (by norm_num) (min_le_left _ _)⟩⟩

/-- `dict.get(fp, 0.0)` on a semantic-scores dict whose values lie in [0, 1]
yields a value in [0, 1]. -/
theorem dget_bounds (m : List (Str × ℚ)) (k : Str)
    (h : ∀ p ∈ m, 0 ≤ p.2 ∧ p.2 ≤ 1) :
    0 ≤ Ranking.dget m k 0 ∧ Ranking.dget m k 0 ≤ 1 := by
  unfold Ranking.dget
  cases hf : m.find? (fun p => decide (p.1 = k)) with
  | none => norm_num
  | some p => exact h p (List.mem_of_find?_eq_some hf)

/-- C2: with the `CVAnalysisAgent` of src/agent.py as analyzer and semantic
scores in [0, 1], every `CandidateScore` produced by `rank_candidates` has
its four sub-scores, its semantic sub-score and its final match score in
[0, 100]. -/
theorem c2_scores_in_range (llm : Str → Str → Except Unit Str)
    (decode : Str → Option RawAnalysis) (jd_text : Str)
    (cv_data : List (Str × Option Str)) (semantic_scores : List (Str × ℚ))
    (session_id : Str)
    (hsem : ∀ p ∈ semantic_scores, 0 ≤ p.2 ∧ p.2 ≤ 1)
    (c : Ranking.CandidateScore)
    (hc : c ∈ Ranking.rank_candidates (Agent.analyze_cv_match llm decode) jd_text cv_data
      semantic_scores session_id) :
    (0 ≤ c.skill_match_score ∧ c.skill_match_score ≤ 100) ∧
    (0 ≤ c.experience_score ∧ c.experience_score ≤ 100) ∧
    (0 ≤ c.tool_tech_score ∧ c.tool_tech_score ≤ 100) ∧
    (0 ≤ c.seniority_score ∧ c.seniority_score ≤ 100) ∧
    (0 ≤ c.semantic_score ∧ c.semantic_score ≤ 100) ∧
    (0 ≤ c.match_score ∧ c.match_score ≤ 100) := by
  obtain ⟨fp, cv_text, hmem, rfl⟩ :=
    (Ranking.mem_rank_candidates_iff (Agent.analyze_cv_match llm decode) jd_text cv_data
      semantic_scores session_id c).mp hc
  obtain ⟨h1, h2, h3, h4⟩ := agent_scores_in_range llm decode jd_text cv_text
  obtain ⟨hd0, hd1⟩ := dget_bounds semantic_scores fp hsem
  have e1 : (Ranking.score_candidate (Agent.analyze_cv_match llm decode) jd_text
      semantic_scores fp cv_text).skill_match_score =
      round2 (Agent.analyze_cv_match llm decode jd_text cv_text).skill_match_score := rfl
  have e2 : (Ranking.score_candidate (Agent.analyze_cv_match llm decode) jd_text
      semantic_scores fp cv_text).experience_score =
      round2 (Agent.analyze_cv_match llm decode jd_text cv_text).experience_score := rfl
  have e3 : (Ranking.score_candidate (Agent.analyze_cv_match llm decode) jd_text
      semantic_scores fp cv_text).tool_tech_score =
      round2 (Agent.analyze_cv_match llm decode jd_text cv_text).tool_tech_score := rfl
  have e4 : (Ranking.score_candidate (Agent.analyze_cv_match llm decode) jd_text
      semantic_scores fp cv_text).seniority_score =
      round2 (Agent.analyze_cv_match llm decode jd_text cv_text).seniority_score := rfl
  have e5 : (Ranking.score_candidate (Agent.analyze_cv_match llm decode) jd_text
      semantic_scores fp cv_text).semantic_score =
      round2 (Ranking.dget semantic_scores fp 0 * 100) := rfl
  have e6 : ∃ y : ℚ, (Ranking.score_candidate (Agent.analyze_cv_match llm decode) jd_text
      semantic_scores fp cv_text).match_score = round2 (max 0 (min 100 y)) := ⟨_, rfl⟩
  obtain ⟨y, e6⟩ := e6
  rw [e1, e2, e3, e4, e5, e6]
  refine ⟨⟨round2_nonneg _ h1.1, round2_le_100 _ h1.2⟩,
    ⟨round2_nonneg _ h2.1, round2_le_100 _ h2.2⟩,
    ⟨round2_nonneg _ h3.1, round2_le_100 _ h3.2⟩,
    ⟨round2_nonneg _ h4.1, round2_le_100 _ h4.2⟩,
    ⟨round2_nonneg _ (by positivity), round2_le_100 _ (by linarith)⟩,
    ⟨round2_nonneg _ (le_max_left 0 _),
      round2_le_100 _ (max_le (by norm_num) (min_le_left _ _))⟩⟩

/-- The candidate record produced when the agent's analysis fails to parse. -/
def demo_agent_score : Ranking.CandidateScore :=
  Ranking.score_candidate (Agent.analyze_cv_match demo_llm demo_decode) (str "jd")
    demo_semantic (str "cv1.pdf") (str "cv text")

/-- C2 witness: the bounds hold for the concrete candidate produced from a
semantic score of 0.82 and an unparseable LLM response. -/
theorem c2_scores_in_range_witness :
    (0 ≤ demo_agent_score.skill_match_score ∧ demo_agent_score.skill_match_score ≤ 100) ∧
    (0 ≤ demo_agent_score.experience_score ∧ demo_agent_score.experience_score ≤ 100) ∧
    (0 ≤ demo_agent_score.tool_tech_score ∧ demo_agent_score.tool_tech_score ≤ 100) ∧
    (0 ≤ demo_agent_score.seniority_score ∧ demo_agent_score.seniority_score ≤ 100) ∧
    (0 ≤ demo_agent_score.semantic_score ∧ demo_agent_score.semantic_score ≤ 100) ∧
    (0 ≤ demo_agent_score.match_score ∧ demo_agent_score.match_score ≤ 100) := by
  have hmem : demo_agent_score ∈ Ranking.rank_candidates
      (Agent.analyze_cv_match demo_llm demo_decode) (str "jd") demo_cv_data demo_semantic
      (str "s") := by
    have e : Ranking.rank_candidates (Agent.analyze_cv_match demo_llm demo_decode)
        (str "jd") demo_cv_data demo_semantic (str "s") = [demo_agent_score] := rfl
    rw [e]
    exact List.mem_singleton_self _
  refine c2_scores_in_range demo_llm demo_decode (str "jd") demo_cv_data demo_semantic
    (str "s") ?_ demo_agent_score hmem
  intro p hp
  simp only [demo_semantic, List.mem_singleton] at hp
  subst hp
  constructor <;> norm_num

/-!
## Claim C4 — empty or blank input texts
-/

/-- C4 counterexample: the claim states that for empty or blank input text
`analyze` makes no call to the external structured-assessment capability.
In src/agent.py — the `CVAnalysisAgent` that src/api.py actually uses — the
chain is run unconditionally (line 100), so with an empty job-description
text the external call is still made, with the empty string as the job
description. -/
theorem c4_empty_jd_still_calls :
    Agent.analyze_external_calls (str "") (str "cv") = [(str "", str "cv")] := rfl

/-- C4 (amended): the empty/blank-input guard exists in the
`CVAnalysisAgent` of src/core/agent.py (lines 94-101), which no other module
imports: there, a blank job description or CV yields a degraded default —
four zero sub-scores, empty skill lists, a human-readable explanation — and
no external call is made. -/
theorem c4_core_blank_input_no_call (llm : Str → Str → Except Unit Str)
    (decode : Str → Option RawAnalysis) (jd_text cv_text : Str)
    (h : py_is_blank jd_text = true ∨ py_is_blank cv_text = true) :
    CoreAgent.analyze_external_calls jd_text cv_text = [] ∧
    (CoreAgent.analyze_cv_match llm decode jd_text cv_text).skill_match_score = 0 ∧
    (CoreAgent.analyze_cv_match llm decode jd_text cv_text).experience_score = 0 ∧
    (CoreAgent.analyze_cv_match llm decode jd_text cv_text).tool_tech_score = 0 ∧
    (CoreAgent.analyze_cv_match llm decode jd_text cv_text).seniority_score = 0 ∧
    (CoreAgent.analyze_cv_match llm decode jd_text cv_text).matched_skills = [] ∧
    (CoreAgent.analyze_cv_match llm decode jd_text cv_text).missing_skills = [] ∧
    (CoreAgent.analyze_cv_match llm decode jd_text cv_text).explanation ≠ [] := by
  unfold CoreAgent.analyze_external_calls CoreAgent.analyze_cv_match
  rcases h with h | h
  · simp [h, CoreAgent.default_analysis, str]
  · by_cases hj : py_is_blank jd_text = true
    · simp [hj, CoreAgent.default_analysis, str]
    · simp [hj, h, CoreAgent.default_analysis, str]

/-- C4 witness: instantiating the amended theorem at an empty job
description. -/
theorem c4_core_blank_input_no_call_witness :
    CoreAgent.analyze_external_calls (str "") (str "cv") = [] ∧
    (CoreAgent.analyze_cv_match demo_llm demo_decode (str "") (str "cv")).skill_match_score = 0 ∧
    (CoreAgent.analyze_cv_match demo_llm demo_decode (str "") (str "cv")).experience_score = 0 ∧
    (CoreAgent.analyze_cv_match demo_llm demo_decode (str "") (str "cv")).tool_tech_score = 0 ∧
    (CoreAgent.analyze_cv_match demo_llm demo_decode (str "") (str "cv")).seniority_score = 0 ∧
    (CoreAgent.analyze_cv_match demo_llm demo_decode (str "") (str "cv")).matched_skills = [] ∧
    (CoreAgent.analyze_cv_match demo_llm demo_decode (str "") (str "cv")).missing_skills = [] ∧
    (CoreAgent.analyze_cv_match demo_llm demo_decode (str "") (str "cv")).explanation ≠ [] :=
  c4_core_blank_input_no_call demo_llm demo_decode (str "") (str "cv") (Or.inl (by decide))

/-!
## Claim C5 — unparseable responses and raised exceptions
-/

/-- C5: whenever the LLM call used by src/agent.py `analyze_cv_match` either
raises or returns a response whose cleaned text fails to parse, the result is
`_get_default_analysis()`: four zero sub-scores, empty matched/missing skill
lists and a non-empty fallback explanation. The embedded function is total,
so no exception escapes. -/
theorem c5_parse_failure_default (llm : Str → Str → Except Unit Str)
    (decode : Str → Option RawAnalysis) (jd_text cv_text : Str)
    (h : ∀ r, llm (Agent.truncate jd_text) (Agent.truncate cv_text) = Except.ok r →
      decode (Agent.clean_result r) = none) :
    Agent.analyze_cv_match llm decode jd_text cv_text = Agent.default_analysis ∧
    (Agent.analyze_cv_match llm decode jd_text cv_text).skill_match_score = 0 ∧
    (Agent.analyze_cv_match llm decode jd_text cv_text).experience_score = 0 ∧
    (Agent.analyze_cv_match llm decode jd_text cv_text).tool_tech_score = 0 ∧
    (Agent.analyze_cv_match llm decode jd_text cv_text).seniority_score = 0 ∧
    (Agent.analyze_cv_match llm decode jd_text cv_text).matched_skills = [] ∧
    (Agent.analyze_cv_match llm decode jd_text cv_text).missing_skills = [] ∧
    (Agent.analyze_cv_match llm decode jd_text cv_text).explanation ≠ [] := by
  have hd : Agent.analyze_cv_match llm decode jd_text cv_text = Agent.default_analysis := by
    unfold Agent.analyze_cv_match
    cases hm : llm (Agent.truncate jd_text) (Agent.truncate cv_text) with
    | error e => rfl
    | ok r => simp [Agent.analyze_of_response, Agent.analyze_of_parsed, h r hm]
  rw [hd]
  refine ⟨rfl, rfl, rfl, rfl, rfl, rfl, rfl, ?_⟩
  decide

/-- C5 witness: a capability answering `not json`, on which every decode
fails, yields exactly the fallback default. -/
theorem c5_parse_failure_default_witness :
    Agent.analyze_cv_match demo_llm demo_decode (str "jd") (str "cv") = Agent.default_analysis ∧
    (Agent.analyze_cv_match demo_llm demo_decode (str "jd") (str "cv")).skill_match_score = 0 ∧
    (Agent.analyze_cv_match demo_llm demo_decode (str "jd") (str "cv")).experience_score = 0 ∧
    (Agent.analyze_cv_match demo_llm demo_decode (str "jd") (str "cv")).tool_tech_score = 0 ∧
    (Agent.analyze_cv_match demo_llm demo_decode (str "jd") (str "cv")).seniority_score = 0 ∧
    (Agent.analyze_cv_match demo_llm demo_decode (str "jd") (str "cv")).matched_skills = [] ∧
    (Agent.analyze_cv_match demo_llm demo_decode (str "jd") (str "cv")).missing_skills = [] ∧
    (Agent.analyze_cv_match demo_llm demo_decode (str "jd") (str "cv")).explanation ≠ [] :=
  c5_parse_failure_default demo_llm demo_decode (str "jd") (str "cv") (fun _ _ => rfl)

/-!
## Claim C6 — completeness of the ranked list
-/

/-- C6 counterexample: the claim states `rank_candidates` returns one
`CandidateScore` per candidate in `cv_data`, with unavailable-text candidates
still appearing at score 0. The loop's `continue` (src/ranking.py lines
77-78) silently skips a candidate whose text is `None`: with one such
candidate the ranked list is empty. (src/api.py line 175 likewise filters
`None`-text candidates out of `cv_data` before ranking.) -/
theorem c6_none_text_candidate_dropped :
    Ranking.rank_candidates demo_analyzer (str "jd") [(str "cv1.pdf", none)] [] (str "s")
      = [] := rfl

/-- C6 (amended): `rank_candidates` returns one `CandidateScore` per
candidate whose text is available (non-`None`) — candidates whose text is
unavailable are silently dropped, not ranked at score 0 — and a candidate
whose analysis fails still appears, carrying the analyzer's fallback values
and explanation, since the analyzer returns a default instead of raising. -/
theorem c6_rank_complete_for_available (analyzer : Str → Str → Analysis) (jd_text : Str)
    (cv_data : List (Str × Option Str)) (semantic_scores : List (Str × ℚ))
    (session_id : Str) :
    (Ranking.rank_candidates analyzer jd_text cv_data semantic_scores session_id).length =
      (cv_data.filter (fun p => p.2.isSome)).length ∧
    ∀ fp cv_text, (fp, some cv_text) ∈ cv_data →
      ∃ c, c ∈ Ranking.rank_candidates analyzer jd_text cv_data semantic_scores session_id ∧
        c.file_path = fp ∧ c.explanation = (analyzer jd_text cv_text).explanation := by
  constructor
  · show (Ranking.sort_by_match_score_desc
      (Ranking.scored_candidates analyzer jd_text cv_data semantic_scores)).length = _
    rw [Ranking.length_sort_by_match_score_desc, Ranking.length_scored_candidates]
  · intro fp cv_text ht
    refine ⟨Ranking.score_candidate analyzer jd_text semantic_scores fp cv_text, ?_, rfl, rfl⟩
    rw [Ranking.mem_rank_candidates_iff]
    exact ⟨fp, cv_text, ht, rfl⟩

/-- C6 witness: the available-text candidate `cv1.pdf` appears in the ranked
output with its analyzer explanation. -/
theorem c6_rank_complete_for_available_witness :
    ∃ c, c ∈ Ranking.rank_candidates demo_analyzer (str "jd") demo_cv_data demo_semantic
        (str "s") ∧
      c.file_path = str "cv1.pdf" ∧
      c.explanation = (demo_analyzer (str "jd") (str "cv text")).explanation :=
  (c6_rank_complete_for_available demo_analyzer (str "jd") demo_cv_data demo_semantic
    (str "s")).2 (str "cv1.pdf") (str "cv text") (by simp [demo_cv_data])
